import Mathlib

/-! Shallow embedding of `src/data_models/models.py` from the
food_delivery_mcp repository: the plain data records Restaurant, MenuItem,
User, OrderItem, OrderCreationData and Order, their dictionary
serialization `to_dict`, the OrderStatus constant table and the APIError
exception type.

Python dictionaries are modelled as association lists in insertion order
over an inductive dynamic-value type `Value`; `datetime` values are
modelled as `PyDateTime`. The two nondeterministic construction-time
generators used by `Order.__post_init__` — `uuid.uuid4()` and
`datetime.now(timezone.utc)` — are modelled by an explicit environment
`PostInitEnv` supplying the 128 random bits and the two clock readings
those library calls would return. -/

set_option autoImplicit false

/-! Model of Python's `str(uuid.uuid4())` (standard-library collaborator,
not repository code): 128 random bits with version and variant bits
forced, printed as 32 lowercase hex digits in groups 8-4-4-4-12 separated
by hyphens. -/

/-- Lowercase hex digit character for `n < 16` (0-9 then a-f). -/
def hexChar (n : Nat) : Char :=
  if n < 10 then Char.ofNat (48 + n) else Char.ofNat (87 + n)

/-- Character class of lowercase hexadecimal digits. -/
def isHexLowerChar (c : Char) : Bool :=
  (48 ≤ c.toNat && c.toNat ≤ 57) || (97 ≤ c.toNat && c.toNat ≤ 102)

/-- Fixed-width base-16 rendering: `hexDigits k n` is the `k` lowest hex
digits of `n`, most significant first — Python's width-`k` `%x` format
for values below `16 ^ k`. -/
def hexDigits : Nat → Nat → List Char
  | 0, _ => []
  | k + 1, n => hexDigits k (n / 16) ++ [hexChar (n % 16)]

/-- The integer value of a version-4 UUID built from 128 random bits `r`;
mirrors `uuid.UUID(bytes=.., version=4)`: variant bits forced to binary
10 and version bits to 0100. -/
def uuid4Int (r : Nat) : Nat :=
  let n := r % 2 ^ 128
  let n := Nat.lor (Nat.land n (2 ^ 128 - 1 - (0xc000 <<< 48))) (0x8000 <<< 48)
  Nat.lor (Nat.land n (2 ^ 128 - 1 - (0xf000 <<< 64))) (0x4000 <<< 64)

/-- The 32 hex digits of the UUID value, as in Python's `%032x` format. -/
def uuidHex (r : Nat) : List Char := hexDigits 32 (uuid4Int r)

/-- The canonical textual form: slices [0:8], [8:12], [12:16], [16:20],
[20:32] of the 32 hex digits, joined by hyphens. -/
def uuidChars (r : Nat) : List Char :=
  ((uuidHex r).take 8) ++
    ('-' :: (((uuidHex r).drop 8).take 4 ++
      ('-' :: (((uuidHex r).drop 12).take 4 ++
        ('-' :: (((uuidHex r).drop 16).take 4 ++
          ('-' :: ((uuidHex r).drop 20))))))))

/-- Model of `str(uuid.uuid4())` given the 128 random bits `r`. -/
def str_uuid4 (r : Nat) : String := String.mk (uuidChars r)

/-- Consume exactly `k` lowercase hex characters from the front of a
character list, returning the remainder. -/
def hexRun : Nat → List Char → Option (List Char)
  | 0, l => some l
  | _ + 1, [] => none
  | k + 1, c :: l => if isHexLowerChar c then hexRun k l else none

/-- Consume one hyphen from the front of a character list. -/
def dashThen : List Char → Option (List Char)
  | '-' :: l => some l
  | _ => none

/-- Recognizer for the canonical textual UUID form: 8, 4, 4, 4 and 12
lowercase hex digits separated by single hyphens, nothing more. -/
def isCanonicalUUIDChars (l : List Char) : Bool :=
  match ((((((((hexRun 8 l).bind dashThen).bind (hexRun 4)).bind dashThen).bind
      (hexRun 4)).bind dashThen).bind (hexRun 4)).bind dashThen).bind (hexRun 12) with
  | some [] => true
  | _ => false

/-- Canonical textual UUID form, on strings. -/
def isCanonicalUUID (s : String) : Bool := isCanonicalUUIDChars s.data

/-- Model of a Python `datetime` object: an instant plus whether its
tzinfo is UTC. `datetime.now(timezone.utc)` always yields `utc = true`. -/
structure PyDateTime where
  instant : Nat
  utc : Bool
deriving DecidableEq, Repr

/-- Model of `datetime.now(timezone.utc)` given the clock reading `t`. -/
def datetime_now_utc (t : Nat) : PyDateTime := ⟨t, true⟩

/-- Environment for `Order.__post_init__`: the 128 random bits
`uuid.uuid4()` would draw, and the instants the clock would read at the
`created_at` and at the `updated_at` defaulting line respectively. -/
structure PostInitEnv where
  uuidBits : Nat
  nowCreated : Nat
  nowUpdated : Nat

/-- Dynamic values stored in the dictionaries produced by `to_dict`. -/
inductive Value where
  | str : String → Value
  | int : Int → Value
  | num : Rat → Value
  | time : PyDateTime → Value
  | list : List Value → Value
  | dict : List (String × Value) → Value
  | null : Value

/-- A Python dict in insertion order: an association list. -/
abbrev PyDict := List (String × Value)

/-- Model of `google.cloud.firestore.GeoPoint` (external collaborator):
a latitude/longitude pair. -/
structure GeoPoint where
  latitude : Rat
  longitude : Rat
deriving DecidableEq, Repr

/-- Restaurant data model (models.py lines 13-47). -/
structure Restaurant where
  id : String
  name : String
  cuisine : String
  address : String
  rating : Rat
  deliveryFee : Rat
  estimatedDeliveryTime : Int
  subname : Option String
  coords : Option GeoPoint

/-- `Restaurant.to_dict`: the seven base keys, then `subname` if the
stored optional string is truthy (Python truthiness: present and
non-empty), then `coords` if present, as a nested latitude/longitude
dict. -/
def Restaurant.to_dict (r : Restaurant) : PyDict :=
  let data : PyDict :=
    [("id", Value.str r.id),
     ("name", Value.str r.name),
     ("cuisine", Value.str r.cuisine),
     ("address", Value.str r.address),
     ("rating", Value.num r.rating),
     ("deliveryFee", Value.num r.deliveryFee),
     ("estimatedDeliveryTime", Value.int r.estimatedDeliveryTime)]
  let data : PyDict :=
    match r.subname with
    | some s => if s = "" then data else data ++ [("subname", Value.str s)]
    | none => data
  match r.coords with
  | some c =>
      data ++ [("coords", Value.dict
        [("latitude", Value.num c.latitude),
         ("longitude", Value.num c.longitude)])]
  | none => data

/-- Menu item data model (models.py lines 50-66). -/
structure MenuItem where
  id : String
  name : String
  description : String
  price : Rat

/-- `MenuItem.to_dict`: four keys, no conditional omission. -/
def MenuItem.to_dict (m : MenuItem) : PyDict :=
  [("id", Value.str m.id),
   ("name", Value.str m.name),
   ("description", Value.str m.description),
   ("price", Value.num m.price)]

/-- User data model (models.py lines 69-89). -/
structure User where
  id : String
  email : String
  name : String
  order_history : Option (List String)

/-- `User.__post_init__`: replace an absent order history by the empty
list. -/
def User.post_init (u : User) : User :=
  match u.order_history with
  | none => { u with order_history := some [] }
  | some _ => u

/-- Dataclass construction of a User: field assignment followed by
`__post_init__`. -/
def User.construct (id email name : String) (order_history : Option (List String)) : User :=
  User.post_init ⟨id, email, name, order_history⟩

/-- `User.to_dict`: four keys, with `order_history` renamed to
`orderHistory` and emitted as stored (null only if the field is still
None). -/
def User.to_dict (u : User) : PyDict :=
  [("id", Value.str u.id),
   ("email", Value.str u.email),
   ("name", Value.str u.name),
   ("orderHistory",
     match u.order_history with
     | none => Value.null
     | some l => Value.list (l.map Value.str))]

/-- Order item data model (models.py lines 92-102). -/
structure OrderItem where
  menu_item_id : String

/-- `OrderItem.to_dict`: the single key `menuItemId`. -/
def OrderItem.to_dict (i : OrderItem) : PyDict :=
  [("menuItemId", Value.str i.menu_item_id)]

/-- Order creation payload (models.py lines 105-121). -/
structure OrderCreationData where
  restaurant_id : String
  user_id : String
  item_ids : List String
  delivery_address : String

/-- `OrderCreationData.to_dict`: four renamed keys. -/
def OrderCreationData.to_dict (d : OrderCreationData) : PyDict :=
  [("restaurant", Value.str d.restaurant_id),
   ("user", Value.str d.user_id),
   ("items", Value.list (d.item_ids.map Value.str)),
   ("deliveryAddress", Value.str d.delivery_address)]

/-- Order data model (models.py lines 124-157). -/
structure Order where
  restaurant : String
  user : String
  items : List OrderItem
  delivery_address : String
  status : String
  order_id : Option String
  created_at : Option PyDateTime
  updated_at : Option PyDateTime

/-- `Order.__post_init__`: fill each of `order_id`, `created_at`,
`updated_at` independently when absent, from the uuid generator and two
successive clock reads supplied by the environment. -/
def Order.post_init (env : PostInitEnv) (o : Order) : Order :=
  let o :=
    match o.order_id with
    | none => { o with order_id := some (str_uuid4 env.uuidBits) }
    | some _ => o
  let o :=
    match o.created_at with
    | none => { o with created_at := some (datetime_now_utc env.nowCreated) }
    | some _ => o
  match o.updated_at with
  | none => { o with updated_at := some (datetime_now_utc env.nowUpdated) }
  | some _ => o

/-- Dataclass construction of an Order: field assignment followed by
`__post_init__`. -/
def Order.construct (env : PostInitEnv) (restaurant user : String)
    (items : List OrderItem) (delivery_address status : String)
    (order_id : Option String) (created_at updated_at : Option PyDateTime) : Order :=
  Order.post_init env
    ⟨restaurant, user, items, delivery_address, status, order_id, created_at, updated_at⟩

/-- Construction of an Order with every defaultable field left at its
dataclass default: status "pending", order_id/created_at/updated_at
absent. -/
def Order.constructDefaults (env : PostInitEnv) (restaurant user : String)
    (items : List OrderItem) (delivery_address : String) : Order :=
  Order.construct env restaurant user items delivery_address "pending" none none none

/-- Optional datetime as a dict value: None becomes null. -/
def optTimeValue : Option PyDateTime → Value
  | none => Value.null
  | some t => Value.time t

/-- `Order.to_dict`: seven keys; `items` maps each OrderItem through its
own `to_dict`; `order_id` is not emitted. -/
def Order.to_dict (o : Order) : PyDict :=
  [("restaurant", Value.str o.restaurant),
   ("user", Value.str o.user),
   ("items", Value.list (o.items.map (fun it => Value.dict it.to_dict))),
   ("deliveryAddress", Value.str o.delivery_address),
   ("status", Value.str o.status),
   ("createdAt", optTimeValue o.created_at),
   ("updatedAt", optTimeValue o.updated_at)]

/-- Order status constant (models.py line 163). -/
def OrderStatus.PENDING : String := "pending"

/-- Order status constant (models.py line 164). -/
def OrderStatus.CONFIRMED : String := "confirmed"

/-- Order status constant (models.py line 165). -/
def OrderStatus.PREPARING : String := "preparing"

/-- Order status constant (models.py line 166). -/
def OrderStatus.READY : String := "ready"

/-- Order status constant (models.py line 167). -/
def OrderStatus.OUT_FOR_DELIVERY : String := "out_for_delivery"

/-- Order status constant (models.py line 168). -/
def OrderStatus.DELIVERED : String := "delivered"

/-- Order status constant (models.py line 169). -/
def OrderStatus.CANCELLED : String := "cancelled"

/-- `OrderStatus.get_valid_statuses`: the seven constants in declaration
order. -/
def OrderStatus.get_valid_statuses : List String :=
  [OrderStatus.PENDING, OrderStatus.CONFIRMED, OrderStatus.PREPARING,
   OrderStatus.READY, OrderStatus.OUT_FOR_DELIVERY, OrderStatus.DELIVERED,
   OrderStatus.CANCELLED]

/-- APIError (models.py lines 185-191): message, status code, and the
argument tuple passed to the Exception base constructor. -/
structure APIError where
  message : String
  status_code : Int
  args : List String

/-- `APIError.__init__` with an explicit status code: stores both
attributes and forwards the message to the Exception base constructor. -/
def APIError.init (message : String) (status_code : Int) : APIError :=
  ⟨message, status_code, [message]⟩

/-- `APIError(message)` with the status code left at its default 400. -/
def APIError.initDefault (message : String) : APIError :=
  APIError.init message 400

/-- Model of Python's `Exception.__str__` on this error: with a single
argument it returns that argument. -/
def APIError.strForm (e : APIError) : String :=
  match e.args with
  | [a] => a
  | as_ => String.intercalate ", " as_

/-! Auxiliary lemmas: the textual form produced by `str_uuid4` is always
canonical. -/

theorem hexDigits_length (k n : Nat) : (hexDigits k n).length = k := by
  induction k generalizing n with
  | zero => rfl
  | succ k ih => simp [hexDigits, ih]

theorem hexChar_hex_of_lt (m : Nat) (h : m < 16) : isHexLowerChar (hexChar m) = true := by
  have hdec : ∀ m : Nat, m < 16 → isHexLowerChar (hexChar m) = true := by decide
  exact hdec m h

theorem hexDigits_hex (k n : Nat) : ∀ c ∈ hexDigits k n, isHexLowerChar c = true := by
  induction k generalizing n with
  | zero => intro c hc; simp [hexDigits] at hc
  | succ k ih =>
      intro c hc
      simp only [hexDigits, List.mem_append, List.mem_singleton] at hc
      rcases hc with h | h
      · exact ih _ c h
      · subst h
        exact hexChar_hex_of_lt _ (Nat.mod_lt _ (by decide))

theorem hexRun_append (h rest : List Char) (k : Nat) (hlen : h.length = k)
    (hhex : ∀ c ∈ h, isHexLowerChar c = true) :
    hexRun k (h ++ rest) = some rest := by
  induction h generalizing k with
  | nil => cases hlen; rfl
  | cons c t ih =>
      cases k with
      | zero => simp at hlen
      | succ k =>
          have hc : isHexLowerChar c = true := hhex c (List.mem_cons_self c t)
          have ht : t.length = k := by simpa using hlen
          simp only [List.cons_append, hexRun, hc, if_true]
          exact ih k ht (fun c hc2 => hhex c (List.mem_cons_of_mem _ hc2))

theorem uuidHex_length (r : Nat) : (uuidHex r).length = 32 := hexDigits_length 32 _

theorem uuidHex_hex (r : Nat) : ∀ c ∈ uuidHex r, isHexLowerChar c = true := hexDigits_hex 32 _

theorem uuidChars_canonical (r : Nat) : isCanonicalUUIDChars (uuidChars r) = true := by
  have hlen : (uuidHex r).length = 32 := uuidHex_length r
  have hhex := uuidHex_hex r
  have l1 : ((uuidHex r).take 8).length = 8 := by simp [List.length_take, hlen]
  have l2 : (((uuidHex r).drop 8).take 4).length = 4 := by
    simp [List.length_take, List.length_drop, hlen]
  have l3 : (((uuidHex r).drop 12).take 4).length = 4 := by
    simp [List.length_take, List.length_drop, hlen]
  have l4 : (((uuidHex r).drop 16).take 4).length = 4 := by
    simp [List.length_take, List.length_drop, hlen]
  have l5 : ((uuidHex r).drop 20).length = 12 := by simp [List.length_drop, hlen]
  have m1 : ∀ c ∈ (uuidHex r).take 8, isHexLowerChar c = true :=
    fun c hc => hhex c (List.take_subset _ _ hc)
  have m2 : ∀ c ∈ ((uuidHex r).drop 8).take 4, isHexLowerChar c = true :=
    fun c hc => hhex c (List.drop_subset _ _ (List.take_subset _ _ hc))
  have m3 : ∀ c ∈ ((uuidHex r).drop 12).take 4, isHexLowerChar c = true :=
    fun c hc => hhex c (List.drop_subset _ _ (List.take_subset _ _ hc))
  have m4 : ∀ c ∈ ((uuidHex r).drop 16).take 4, isHexLowerChar c = true :=
    fun c hc => hhex c (List.drop_subset _ _ (List.take_subset _ _ hc))
  have m5 : ∀ c ∈ (uuidHex r).drop 20, isHexLowerChar c = true :=
    fun c hc => hhex c (List.drop_subset _ _ hc)
  have e5 : hexRun 12 ((uuidHex r).drop 20) = some [] := by
    have h := hexRun_append ((uuidHex r).drop 20) [] 12 l5 m5
    simpa using h
  unfold isCanonicalUUIDChars uuidChars
  rw [hexRun_append _ _ _ l1 m1]
  simp only [Option.bind, dashThen]
  rw [hexRun_append _ _ _ l2 m2]
  simp only [Option.bind, dashThen]
  rw [hexRun_append _ _ _ l3 m3]
  simp only [Option.bind, dashThen]
  rw [hexRun_append _ _ _ l4 m4]
  simp only [Option.bind, dashThen]
  rw [e5]

theorem str_uuid4_canonical (r : Nat) : isCanonicalUUID (str_uuid4 r) = true :=
  uuidChars_canonical r

/-! Claim theorems. -/

/-- C1: an Order constructed with order_id, created_at or updated_at
absent has, after construction, each such field filled — order_id with a
freshly generated 128-bit identifier in canonical textual UUID form,
created_at and updated_at each with a UTC timestamp captured once — and
each default rule triggers independently, only for the field that was
absent (a supplied value is kept unchanged). -/
theorem order_post_init_defaults (env : PostInitEnv) (restaurant user : String)
    (items : List OrderItem) (delivery_address status : String)
    (order_id : Option String) (created_at updated_at : Option PyDateTime) :
    ((Order.construct env restaurant user items delivery_address status
        order_id created_at updated_at).order_id
      = some (order_id.getD (str_uuid4 env.uuidBits)))
    ∧ ((Order.construct env restaurant user items delivery_address status
        order_id created_at updated_at).created_at
      = some (created_at.getD (datetime_now_utc env.nowCreated)))
    ∧ ((Order.construct env restaurant user items delivery_address status
        order_id created_at updated_at).updated_at
      = some (updated_at.getD (datetime_now_utc env.nowUpdated)))
    ∧ ((Order.construct env restaurant user items delivery_address status
        order_id created_at updated_at).order_id ≠ none)
    ∧ ((Order.construct env restaurant user items delivery_address status
        order_id created_at updated_at).created_at ≠ none)
    ∧ ((Order.construct env restaurant user items delivery_address status
        order_id created_at updated_at).updated_at ≠ none)
    ∧ (isCanonicalUUID (str_uuid4 env.uuidBits) = true)
    ∧ ((datetime_now_utc env.nowCreated).utc = true)
    ∧ ((datetime_now_utc env.nowUpdated).utc = true) := by
  have h1 : (Order.construct env restaurant user items delivery_address status
      order_id created_at updated_at).order_id
      = some (order_id.getD (str_uuid4 env.uuidBits)) := by
    cases order_id <;> cases created_at <;> cases updated_at <;> rfl
  have h2 : (Order.construct env restaurant user items delivery_address status
      order_id created_at updated_at).created_at
      = some (created_at.getD (datetime_now_utc env.nowCreated)) := by
    cases order_id <;> cases created_at <;> cases updated_at <;> rfl
  have h3 : (Order.construct env restaurant user items delivery_address status
      order_id created_at updated_at).updated_at
      = some (updated_at.getD (datetime_now_utc env.nowUpdated)) := by
    cases order_id <;> cases created_at <;> cases updated_at <;> rfl
  refine ⟨h1, h2, h3, ?_, ?_, ?_, str_uuid4_canonical env.uuidBits, rfl, rfl⟩
  · rw [h1]; simp
  · rw [h2]; simp
  · rw [h3]; simp

/-- C2: Order.to_dict emits exactly the keys restaurant, user, items,
deliveryAddress, status, createdAt, updatedAt in that order (order_id is
not emitted); items is the element-wise image of the contained
OrderItems' own to_dict, order preserved; createdAt and updatedAt pass
the stored values through unchanged. -/
theorem order_to_dict_shape (o : Order) :
    (o.to_dict.map Prod.fst
      = ["restaurant", "user", "items", "deliveryAddress", "status", "createdAt", "updatedAt"])
    ∧ ("order_id" ∉ o.to_dict.map Prod.fst)
    ∧ (List.lookup "items" o.to_dict
        = some (Value.list (o.items.map (fun it => Value.dict it.to_dict))))
    ∧ (List.lookup "createdAt" o.to_dict = some (optTimeValue o.created_at))
    ∧ (List.lookup "updatedAt" o.to_dict = some (optTimeValue o.updated_at)) := by
  refine ⟨rfl, ?_, rfl, rfl, rfl⟩
  have hk : o.to_dict.map Prod.fst
      = ["restaurant", "user", "items", "deliveryAddress", "status", "createdAt",
         "updatedAt"] := rfl
  rw [hk]
  decide

/-- C3: Restaurant.to_dict always contains the seven base keys with the
stored values; subname is present iff the stored subname is truthy (a
non-empty string), coords is present iff a coordinate is stored, and an
absent optional key is omitted entirely (lookup yields none, never a
null value). -/
theorem restaurant_to_dict_shape (r : Restaurant) :
    (List.lookup "id" r.to_dict = some (Value.str r.id))
    ∧ (List.lookup "name" r.to_dict = some (Value.str r.name))
    ∧ (List.lookup "cuisine" r.to_dict = some (Value.str r.cuisine))
    ∧ (List.lookup "address" r.to_dict = some (Value.str r.address))
    ∧ (List.lookup "rating" r.to_dict = some (Value.num r.rating))
    ∧ (List.lookup "deliveryFee" r.to_dict = some (Value.num r.deliveryFee))
    ∧ (List.lookup "estimatedDeliveryTime" r.to_dict
        = some (Value.int r.estimatedDeliveryTime))
    ∧ (("subname" ∈ r.to_dict.map Prod.fst) ↔ ∃ s, r.subname = some s ∧ s ≠ "")
    ∧ (List.lookup "subname" r.to_dict
        = match r.subname with
          | some s => if s = "" then none else some (Value.str s)
          | none => none)
    ∧ (("coords" ∈ r.to_dict.map Prod.fst) ↔ r.coords ≠ none)
    ∧ (List.lookup "coords" r.to_dict
        = match r.coords with
          | some c => some (Value.dict
              [("latitude", Value.num c.latitude),
               ("longitude", Value.num c.longitude)])
          | none => none) := by
  obtain ⟨i, nm, cu, ad, ra, fe, ed, subname, coords⟩ := r
  rcases subname with _ | s
  · rcases coords with _ | c
    · exact ⟨rfl, rfl, rfl, rfl, rfl, rfl, rfl, by simp [Restaurant.to_dict], rfl,
        by simp [Restaurant.to_dict], rfl⟩
    · exact ⟨rfl, rfl, rfl, rfl, rfl, rfl, rfl, by simp [Restaurant.to_dict], rfl,
        by simp [Restaurant.to_dict], rfl⟩
  · by_cases hs : s = ""
    · subst hs
      rcases coords with _ | c
      · exact ⟨rfl, rfl, rfl, rfl, rfl, rfl, rfl, by simp [Restaurant.to_dict], rfl,
          by simp [Restaurant.to_dict], rfl⟩
      · exact ⟨rfl, rfl, rfl, rfl, rfl, rfl, rfl, by simp [Restaurant.to_dict], rfl,
          by simp [Restaurant.to_dict], rfl⟩
    · rcases coords with _ | c
      · refine ⟨?_, ?_, ?_, ?_, ?_, ?_, ?_, ?_, ?_, ?_, ?_⟩ <;>
          simp [Restaurant.to_dict, List.lookup, hs]
      · refine ⟨?_, ?_, ?_, ?_, ?_, ?_, ?_, ?_, ?_, ?_, ?_⟩ <;>
          simp [Restaurant.to_dict, List.lookup, hs]

/-- C4: a User constructed without order_history gets the empty list as
order history during construction, so to_dict emits orderHistory as the
empty list, never null, and the output keys are exactly id, email, name,
orderHistory; a supplied order history is kept unchanged. -/
theorem user_default_order_history (id email name : String)
    (order_history : Option (List String)) :
    ((User.construct id email name none).order_history = some [])
    ∧ (List.lookup "orderHistory" (User.construct id email name none).to_dict
        = some (Value.list []))
    ∧ ((User.construct id email name none).to_dict.map Prod.fst
        = ["id", "email", "name", "orderHistory"])
    ∧ ((User.construct id email name order_history).order_history
        = some (order_history.getD []))
    ∧ (List.lookup "orderHistory" (User.construct id email name none).to_dict
        ≠ some Value.null) := by
  refine ⟨rfl, rfl, rfl, ?_, ?_⟩
  · cases order_history <;> rfl
  · simp [User.construct, User.post_init, User.to_dict, List.lookup]

/-- C5: the round-trip example — constructing an Order for restaurant
"r1", user "u1", items m1 and m2 and address "123 Main St" with all
defaults, then serializing, yields exactly the expected seven-key dict
with status "pending" and non-null timestamps. -/
theorem order_round_trip_example (env : PostInitEnv) :
    ((Order.constructDefaults env "r1" "u1" [⟨"m1"⟩, ⟨"m2"⟩] "123 Main St").to_dict
      = [("restaurant", Value.str "r1"),
         ("user", Value.str "u1"),
         ("items", Value.list [Value.dict [("menuItemId", Value.str "m1")],
                               Value.dict [("menuItemId", Value.str "m2")]]),
         ("deliveryAddress", Value.str "123 Main St"),
         ("status", Value.str "pending"),
         ("createdAt", Value.time (datetime_now_utc env.nowCreated)),
         ("updatedAt", Value.time (datetime_now_utc env.nowUpdated))])
    ∧ (Value.time (datetime_now_utc env.nowCreated) ≠ Value.null)
    ∧ (Value.time (datetime_now_utc env.nowUpdated) ≠ Value.null)
    ∧ ((Order.constructDefaults env "r1" "u1" [⟨"m1"⟩, ⟨"m2"⟩] "123 Main St").status
        = "pending") := by
  refine ⟨rfl, ?_, ?_, rfl⟩ <;> simp

/-- C6: OrderStatus.get_valid_statuses returns exactly the seven status
strings pending, confirmed, preparing, ready, out_for_delivery,
delivered, cancelled in that fixed order, with length 7 and no
duplicates. -/
theorem order_status_valid_list :
    (OrderStatus.get_valid_statuses
      = ["pending", "confirmed", "preparing", "ready", "out_for_delivery",
         "delivered", "cancelled"])
    ∧ (OrderStatus.get_valid_statuses.length = 7)
    ∧ OrderStatus.get_valid_statuses.Nodup := by
  refine ⟨rfl, rfl, ?_⟩
  decide

/-- C7: APIError built with "Not found" and 404 carries message
"Not found" and status code 404; APIError built with "Bad input" and the
status code omitted carries status code 400; in general both values are
readable attributes of the constructed object. -/
theorem apiError_attributes :
    ((APIError.init "Not found" 404).message = "Not found")
    ∧ ((APIError.init "Not found" 404).status_code = 404)
    ∧ ((APIError.initDefault "Bad input").message = "Bad input")
    ∧ ((APIError.initDefault "Bad input").status_code = 400)
    ∧ (∀ (m : String) (c : Int),
        (APIError.init m c).message = m ∧ (APIError.init m c).status_code = c) :=
  ⟨rfl, rfl, rfl, rfl, fun m c => ⟨rfl, rfl⟩⟩

/-- C8: every entity type's to_dict is a pure deterministic function of
the stored field values — calling it twice on the same unmutated record
yields equal mappings both times. -/
theorem to_dict_idempotent (r : Restaurant) (m : MenuItem) (u : User) (it : OrderItem)
    (d : OrderCreationData) (o : Order) :
    (r.to_dict = r.to_dict) ∧ (m.to_dict = m.to_dict) ∧ (u.to_dict = u.to_dict)
    ∧ (it.to_dict = it.to_dict) ∧ (d.to_dict = d.to_dict) ∧ (o.to_dict = o.to_dict) :=
  ⟨rfl, rfl, rfl, rfl, rfl, rfl⟩

/-- C9: an Order constructed with all defaults has status "pending",
which is a member of OrderStatus.get_valid_statuses and equals
OrderStatus.PENDING, so every all-defaults Order starts in a legal
status. -/
theorem order_default_status_valid (env : PostInitEnv) (restaurant user : String)
    (items : List OrderItem) (delivery_address : String) :
    ((Order.constructDefaults env restaurant user items delivery_address).status
      = "pending")
    ∧ ("pending" ∈ OrderStatus.get_valid_statuses)
    ∧ (OrderStatus.PENDING = "pending")
    ∧ ((Order.constructDefaults env restaurant user items delivery_address).status
        = OrderStatus.PENDING) := by
  refine ⟨rfl, ?_, rfl, rfl⟩
  decide

/-- C10: the exception string form of an APIError equals its message
exactly, independent of the status code, because the message is the
single argument forwarded to the Exception base constructor. -/
theorem apiError_str_form (m : String) (c : Int) :
    ((APIError.init m c).strForm = m) ∧ ((APIError.initDefault m).strForm = m) :=
  ⟨rfl, rfl⟩
